import Mathlib

/-!
Shallow embedding of the interview-bot orchestration core
(`src/lib/orchestration/interview.ts`, the role-based orchestration module,
and the API route handlers for message and complete), together with proofs
about its lifecycle, parsing and cost-estimation behaviour.

Numbers are modelled with `ℚ`; the JavaScript record lookups become
`Option`-valued functions; the remote chat-completion call is an oracle
parameter `respond : String → String` so that theorems quantify over every
possible model reply.
-/

namespace InterviewBot

/-- Education roles, from `EducationRole` in the types module. -/
inductive Role where
  | student
  | instructor
  | researcher
  | staff
deriving DecidableEq, Repr

/-- Message roles, from the `Message` interface. -/
inductive MsgRole where
  | user
  | assistant
  | system
deriving DecidableEq, Repr

/-- A transcript message (`Message` interface): role, content, timestamp. -/
structure Message where
  role : MsgRole
  content : String
  timestamp : String
deriving DecidableEq, Repr

/-- `InterviewPlan` interface: objectives, questions, focusAreas. -/
structure InterviewPlan where
  objectives : List String
  questions : List String
  focusAreas : List String
deriving DecidableEq, Repr

/-- `InterviewAnalysis` interface; `recommendations` is optional. -/
structure InterviewAnalysis where
  summary : String
  keyInsights : List String
  depthScore : ℚ
  completionRate : ℚ
  recommendations : Option (List String)
deriving DecidableEq, Repr

/-- Result of an orchestration call that either keeps the parsed JSON text
or falls back to a typed value: the source casts `JSON.parse`'s result
without validating it, so the parsed text is kept verbatim. -/
inductive Outcome (α : Type) where
  | parsed (json : String)
  | value (a : α)
deriving DecidableEq, Repr

/-- Session status values from the `InterviewSession` interface. -/
inductive SessionStatus where
  | planning
  | interviewing
  | analyzing
  | completed
deriving DecidableEq, Repr

/-- An interview session row (`InterviewSession`), with the cost
accumulator flattened into token and amount fields. -/
structure Session where
  id : String
  topic : String
  role : Role
  status : SessionStatus
  transcript : List Message
  plan : Option InterviewPlan
  analysis : Option (Outcome InterviewAnalysis)
  costTokens : Int
  costAmount : ℚ
deriving DecidableEq, Repr

/-! ## Cost estimator (`calculateCost`) -/

/-- Per-model input/output rates, USD per 1K tokens. -/
structure Rates where
  input : ℚ
  output : ℚ
deriving DecidableEq, Repr

/-- The static pricing record inside `calculateCost`: a lookup in the
object literal keyed by model name, `none` when the key is absent. -/
def lookupRates (modelName : String) : Option Rates :=
  if modelName = "gpt-4o" then some ⟨0.005, 0.015⟩
  else if modelName = "gpt-4o-mini" then some ⟨0.00015, 0.0006⟩
  else if modelName = "gpt-4-turbo" then some ⟨0.01, 0.03⟩
  else if modelName = "gpt-4" then some ⟨0.03, 0.06⟩
  else if modelName = "gpt-3.5-turbo" then some ⟨0.0015, 0.002⟩
  else none

/-- `calculateCost(tokens, modelName)`: the rates are
`pricing[modelName] || pricing['gpt-4o']`, each divided by 1000, and the
estimate assumes a 50/50 input/output split. -/
def calculateCost (tokens : ℚ) (modelName : String) : ℚ :=
  let rates := match lookupRates modelName with
    | some r => r
    | none => ⟨0.005, 0.015⟩   -- pricing['gpt-4o']
  let inputRate := rates.input / 1000
  let outputRate := rates.output / 1000
  (tokens / 2) * inputRate + (tokens / 2) * outputRate

/-! ## A model of `JSON.parse` validity

The orchestration module feeds an extracted candidate string to
`JSON.parse` inside a try/catch.  We model parse success with a
fuel-bounded recursive-descent recogniser of the JSON grammar. -/

/-- Skip JSON whitespace. -/
def skipWs : List Char → List Char
  | [] => []
  | c :: rest =>
    if c = ' ' ∨ c = '\n' ∨ c = '\t' ∨ c = '\r' then skipWs rest else c :: rest

/-- Consume a JSON string body after the opening quote; a backslash
escapes the next character. Returns the characters after the closing
quote. -/
def strBody : List Char → Option (List Char)
  | [] => none
  | '"' :: rest => some rest
  | '\\' :: [] => none
  | '\\' :: _ :: rest2 => strBody rest2
  | _ :: rest => strBody rest

/-- Consume one or more digits. -/
def digits1 : List Char → Option (List Char)
  | [] => none
  | c :: rest => if c.isDigit then some (rest.dropWhile Char.isDigit) else none

/-- Consume a JSON number (sign, integer part, optional fraction and
exponent). -/
def numBody (cs : List Char) : Option (List Char) := do
  let cs := match cs with
    | '-' :: rest => rest
    | _ => cs
  let cs ← digits1 cs
  let cs ← match cs with
    | '.' :: rest => digits1 rest
    | _ => some cs
  match cs with
  | c :: rest =>
    if c = 'e' ∨ c = 'E' then
      match rest with
      | s :: rest2 => if s = '+' ∨ s = '-' then digits1 rest2 else digits1 rest
      | [] => none
    else some cs
  | [] => some cs

/-- Grammar positions for the recursive-descent recogniser: a value, an
object tail, one-or-more members, an array tail, one-or-more elements. -/
inductive JMode where
  | val
  | obj
  | members
  | arr
  | elems
deriving DecidableEq, Repr

/-- Fuel-bounded JSON recogniser; returns the remaining characters on
success.  The five grammar positions share one structural recursion on
fuel. -/
def jsonRun : Nat → JMode → List Char → Option (List Char)
  | 0, _, _ => none
  | fuel + 1, JMode.val, cs =>
    (match skipWs cs with
    | [] => none
    | c :: rest =>
      if c = 'n' then if "ull".toList.isPrefixOf rest then some (rest.drop 3) else none
      else if c = 't' then if "rue".toList.isPrefixOf rest then some (rest.drop 3) else none
      else if c = 'f' then if "alse".toList.isPrefixOf rest then some (rest.drop 4) else none
      else if c = '"' then strBody rest
      else if c = '-' ∨ c.isDigit then numBody (c :: rest)
      else if c = '\x7b' then jsonRun fuel JMode.obj rest
      else if c = '[' then jsonRun fuel JMode.arr rest
      else none)
  | fuel + 1, JMode.obj, cs =>
    (match skipWs cs with
    | '\x7d' :: rest => some rest
    | cs2 => jsonRun fuel JMode.members cs2)
  | fuel + 1, JMode.members, cs =>
    (do
    let cs := skipWs cs
    let cs ← match cs with
      | '"' :: rest => strBody rest
      | _ => none
    let cs := skipWs cs
    let cs ← match cs with
      | ':' :: rest => some rest
      | _ => none
    let cs ← jsonRun fuel JMode.val cs
    match skipWs cs with
    | ',' :: rest => jsonRun fuel JMode.members rest
    | '\x7d' :: rest => some rest
    | _ => none)
  | fuel + 1, JMode.arr, cs =>
    (match skipWs cs with
    | ']' :: rest => some rest
    | cs2 => jsonRun fuel JMode.elems cs2)
  | fuel + 1, JMode.elems, cs =>
    (do
    let cs ← jsonRun fuel JMode.val cs
    match skipWs cs with
    | ',' :: rest => jsonRun fuel JMode.elems rest
    | ']' :: rest => some rest
    | _ => none)

/-- Model of a successful `JSON.parse` call: the whole string is a single
JSON value, up to surrounding whitespace. -/
def jsonValid (s : String) : Bool :=
  match jsonRun (4 * (s.length + 1)) JMode.val s.toList with
  | some rest => (skipWs rest).isEmpty
  | none => false

/-! ## The fenced-block / brace-span extraction

Both `generateInterviewPlan` and `analyzeInterview` extract a candidate via
two regular expressions, then parse:
the lazy fenced-block pattern, else the greedy brace pattern, else the raw
text; `jsonMatch[1] || jsonMatch[0]` picks the capture group when it is
non-empty. -/

/-- Characters after the first occurrence of `pat`. -/
def afterFirst (pat : List Char) : List Char → Option (List Char)
  | [] => none
  | c :: rest =>
    if pat.isPrefixOf (c :: rest) then some ((c :: rest).drop pat.length)
    else afterFirst pat rest

/-- Characters strictly before the first occurrence of `pat`. -/
def beforeFirst (pat : List Char) : List Char → Option (List Char)
  | [] => none
  | c :: rest =>
    if pat.isPrefixOf (c :: rest) then some []
    else (beforeFirst pat rest).map (c :: ·)

/-- The lazy fenced-block regex: captures the text between the first
"```json\n" and the first "\n```" after it, when both occur. -/
def fencedInner (content : String) : Option String := do
  let rest ← afterFirst "```json\n".toList content.toList
  let inner ← beforeFirst "\n```".toList rest
  return String.mk inner

/-- Index of the first character satisfying `p`. -/
def firstIdx (p : Char → Bool) : List Char → Option Nat
  | [] => none
  | c :: rest => if p c then some 0 else (firstIdx p rest).map (· + 1)

/-- Index of the last character satisfying `p`. -/
def lastIdx (p : Char → Bool) (cs : List Char) : Option Nat :=
  (firstIdx p cs.reverse).map (fun k => cs.length - 1 - k)

/-- The greedy brace regex: the span from the first opening brace to the
last closing brace, when the close comes after the open. -/
def braceSpan (content : String) : Option String :=
  let cs := content.toList
  match firstIdx (· = '\x7b') cs, lastIdx (· = '\x7d') cs with
  | some i, some j =>
    if i < j then some (String.mk ((cs.drop i).take (j - i + 1))) else none
  | _, _ => none

/-- `jsonMatch ? (jsonMatch[1] || jsonMatch[0]) : content`: the candidate
string handed to `JSON.parse`.  When the fenced pattern matches with an
empty capture, the full match (fence markers included) is used. -/
def extractCandidate (content : String) : String :=
  match fencedInner content with
  | some inner =>
    if inner.isEmpty then "```json\n" ++ inner ++ "\n```" else inner
  | none =>
    match braceSpan content with
    | some span => span
    | none => content

/-- The try-block around `JSON.parse(jsonStr)`: `some` candidate when it
parses, `none` when the parse throws into the catch clause. -/
def extractJson (content : String) : Option String :=
  let c := extractCandidate content
  if jsonValid c then some c else none

/-! ## Static interview plans (role-based orchestration module) -/

/-- The fixed `INTERVIEW_PLANS` table, one pre-authored plan per role. -/
def INTERVIEW_PLANS : Role → InterviewPlan
  | Role.student =>
    { objectives := [
        "Understand how students currently use AI tools in their academic work",
        "Explore the impact of AI on learning and study habits",
        "Identify concerns about AI and academic integrity",
        "Gather perspectives on AI\x27s future role in education"]
      questions := [
        "First, tell me a bit about yourself - are you an undergraduate or graduate student, and what\x27s your field of study?",
        "How do you currently use AI tools like ChatGPT, Claude, or other AI assistants in your coursework or studies?",
        "How has the availability of AI tools affected the way you learn or approach assignments?",
        "What concerns, if any, do you have about AI in relation to academic integrity or your own learning?",
        "How do you think AI will change education in your field over the next few years?",
        "What kind of guidance or support around AI would be helpful from your institution or instructors?"]
      focusAreas := [
        "Current AI usage patterns",
        "Learning impact and study habits",
        "Academic integrity concerns",
        "Future expectations",
        "Institutional support needs"] }
  | Role.instructor =>
    { objectives := [
        "Understand how instructors are incorporating AI into their teaching",
        "Explore approaches to AI policies and academic integrity",
        "Identify challenges in adapting curriculum for the AI era",
        "Gather perspectives on resources and support needs"]
      questions := [
        "To start, what courses do you teach and roughly how many students do you work with?",
        "How are you currently incorporating AI tools into your teaching practice, if at all?",
        "How do you address AI use with your students - do you have specific policies or guidelines?",
        "Has the rise of AI changed how you design assignments, assessments, or course materials?",
        "What concerns do you have about AI in your classroom or discipline?",
        "What resources, training, or institutional support would help you integrate AI more effectively in your teaching?"]
      focusAreas := [
        "Teaching integration practices",
        "Policy and guidelines approaches",
        "Curriculum adaptation",
        "Concerns and challenges",
        "Resource and support needs"] }
  | Role.researcher =>
    { objectives := [
        "Understand how researchers are using AI in their work",
        "Explore attitudes toward AI-assisted writing and analysis",
        "Identify perspectives on research integrity and attribution",
        "Gather views on AI\x27s impact on the research landscape"]
      questions := [
        "Tell me about your research - what\x27s your area of focus and where are you in your career?",
        "How are you currently using AI tools in your research workflow - from literature review to writing?",
        "What\x27s your approach to AI-assisted writing or data analysis in your research?",
        "How do you think about research integrity and attribution when it comes to AI assistance?",
        "How is AI changing your field of research more broadly?",
        "What institutional support or policies around AI in research would be valuable to you?"]
      focusAreas := [
        "Research workflow integration",
        "AI-assisted writing practices",
        "Research integrity perspectives",
        "Field-level impact",
        "Institutional support needs"] }
  | Role.staff =>
    { objectives := [
        "Understand how staff are using AI in their daily work",
        "Explore the impact of AI on roles and workload",
        "Identify challenges in AI adoption and supporting others",
        "Gather perspectives on training and resource needs"]
      questions := [
        "What\x27s your role and department? What are your main responsibilities?",
        "How are you currently using AI tools in your daily work, if at all?",
        "How has AI changed your role or workload - has it made things easier, more complex, or both?",
        "What challenges have you faced in adopting AI tools or supporting others who use them?",
        "How do you currently support faculty or students who have questions about AI?",
        "What training or resources would help you work more effectively with AI?"]
      focusAreas := [
        "Daily work integration",
        "Role and workload impact",
        "Adoption challenges",
        "Supporting others",
        "Training and resource needs"] }

/-- `ROLE_LABELS`: display names used in prompts. -/
def ROLE_LABELS : Role → String
  | Role.student => "Student"
  | Role.instructor => "Instructor/Faculty"
  | Role.researcher => "Researcher"
  | Role.staff => "Staff Member"

/-- `getInterviewPlanForRole`. -/
def getInterviewPlanForRole (role : Role) : InterviewPlan :=
  INTERVIEW_PLANS role

/-- `getFirstQuestionForRole`: `INTERVIEW_PLANS[role].questions[0]`
(the table always has a first question, so the JS index never misses). -/
def getFirstQuestionForRole (role : Role) : String :=
  ((INTERVIEW_PLANS role).questions.headD "")

/-! ## Plan generation (`generateInterviewPlan`, topic-based module)

The remote chat model is an oracle `respond : String → String`. -/

/-- The plan-generation prompt for a topic. -/
def planPrompt (topic : String) : String :=
  "You are an expert interviewer. Create a comprehensive interview plan for the topic: \"" ++ topic ++ "\"\n\nGenerate:\n1. 3-5 clear objectives for this interview\n2. 8-12 initial questions that will help explore the topic deeply\n3. 3-5 focus areas to probe during the conversation\n\nReturn your response as a JSON object with this structure:\n\x7b\n  \"objectives\": [\"objective1\", \"objective2\", ...],\n  \"questions\": [\"question1\", \"question2\", ...],\n  \"focusAreas\": [\"area1\", \"area2\", ...]\n\x7d"

/-- The deterministic fallback plan substituted when JSON parsing fails. -/
def fallbackPlan (topic : String) : InterviewPlan :=
  { objectives := ["Explore " ++ topic ++ " in depth"]
    questions := [
      "What is your experience with " ++ topic ++ "?",
      "Can you tell me more about " ++ topic ++ "?",
      "What are the key aspects of " ++ topic ++ "?"]
    focusAreas := ["Understanding", "Experience", "Perspectives"] }

/-- `generateInterviewPlan(topic)`: invoke the model, extract and parse
JSON from the reply, and fall back to `fallbackPlan` in the catch
clause. -/
def generateInterviewPlan (respond : String → String) (topic : String) :
    Outcome InterviewPlan :=
  let content := respond (planPrompt topic)
  match extractJson content with
  | some json => Outcome.parsed json
  | none => Outcome.value (fallbackPlan topic)

/-! ## Follow-up generation (`generateInterviewResponse`, role-based module) -/

/-- JavaScript `list.slice(-n)` for `n > 0`: the last `n` elements (all of
them when the list is shorter). -/
def jsSliceLast (n : Nat) (l : List α) : List α :=
  l.drop (l.length - n)

/-- The message-role strings used when rendering history lines. -/
def msgRoleName : MsgRole → String
  | MsgRole.user => "user"
  | MsgRole.assistant => "assistant"
  | MsgRole.system => "system"

/-- `historyContext`: the last 10 history entries, rendered
"role: content" and joined with newlines. -/
def historyContext (conversationHistory : List (String × String)) : String :=
  String.intercalate "\n"
    ((jsSliceLast 10 conversationHistory).map (fun msg => msg.1 ++ ": " ++ msg.2))

/-- The follow-up prompt template, assembled from the role label, plan,
rendered history context and latest message. -/
def interviewPrompt (role : Role) (plan : InterviewPlan) (historyCtx : String)
    (currentMessage : String) : String :=
  let roleLabel := ROLE_LABELS role
  let questionsRemaining := String.intercalate "\n- " (plan.questions.drop 1)
  "You are conducting an interview about AI use in education. You are speaking with a "
    ++ roleLabel ++ ".\n\nInterview Objectives:\n"
    ++ String.intercalate "\n" (plan.objectives.map (fun obj => "- " ++ obj))
    ++ "\n\nFocus Areas to explore:\n"
    ++ String.intercalate "\n" (plan.focusAreas.map (fun area => "- " ++ area))
    ++ "\n\nPlanned questions to cover (adapt based on conversation flow):\n- "
    ++ questionsRemaining
    ++ "\n\nPrevious conversation:\n" ++ historyCtx
    ++ "\n\nTheir latest response: " ++ currentMessage
    ++ "\n\nYour task:\n1. Acknowledge their response warmly and naturally\n2. Ask a thoughtful follow-up that probes deeper into their experience\n3. Draw connections between what they\x27ve shared and the focus areas\n4. Keep the conversation flowing naturally - don\x27t interrogate\n5. If they\x27ve explored a topic thoroughly, transition to a new area from your planned questions\n6. Be curious and empathetic - this is a conversation, not a survey\n\nRespond with your next question or comment. Be conversational and genuinely interested in their perspective."

/-- `generateInterviewResponse`: render the prompt (history truncated by
`historyContext`) and return the model's reply. -/
def generateInterviewResponse (respond : String → String) (role : Role)
    (plan : InterviewPlan) (conversationHistory : List (String × String))
    (currentMessage : String) : String :=
  respond (interviewPrompt role plan (historyContext conversationHistory) currentMessage)

/-! ## Analysis (`analyzeInterview`, role-based module) -/

/-- The canned analysis for a transcript with no user responses. -/
def noResponseAnalysis (role : Role) : InterviewAnalysis :=
  { summary := "Interview with a " ++ ROLE_LABELS role ++
      " was started but not completed. No responses were provided."
    keyInsights := ["Interview incomplete - no responses recorded"]
    depthScore := 0
    completionRate := 0
    recommendations := some
      ["Complete the interview by responding to the interviewer\x27s questions"] }

/-- The canned analysis for a transcript with one or two user responses. -/
def minimalAnalysis (role : Role) (userCount : Nat) : InterviewAnalysis :=
  { summary := "Interview with a " ++ ROLE_LABELS role ++
      " was briefly started but ended early with minimal engagement."
    keyInsights := [
      "Interview incomplete - only minimal responses provided",
      "Insufficient data to extract meaningful insights about AI use in education"]
    depthScore := 1
    completionRate := min (0.2 : ℚ) ((userCount : ℚ) / 10)
    recommendations := some
      ["Continue the interview to explore AI experiences more thoroughly"] }

/-- The generic analysis substituted when parsing the model's JSON reply
fails; the source object carries no `recommendations` field. -/
def genericAnalysis (role : Role) : InterviewAnalysis :=
  { summary := "Interview with a " ++ ROLE_LABELS role ++
      " completed. The conversation explored their experiences with AI in education."
    keyInsights := ["Interview completed successfully"]
    depthScore := 3
    completionRate := 0.8
    recommendations := none }

/-- The analysis prompt: objectives plus the non-system transcript. -/
def analysisPrompt (role : Role) (plan : InterviewPlan)
    (transcript : List Message) : String :=
  let roleLabel := ROLE_LABELS role
  let transcriptText := String.intercalate "\n\n"
    ((transcript.filter (fun msg => decide (msg.role ≠ MsgRole.system))).map
      (fun msg => msgRoleName msg.role ++ ": " ++ msg.content))
  "Analyze this interview transcript about AI use in education. The interviewee is a "
    ++ roleLabel ++ ".\n\nInterview Objectives:\n"
    ++ String.intercalate "\n" (plan.objectives.map (fun obj => "- " ++ obj))
    ++ "\n\nTranscript:\n" ++ transcriptText
    ++ "\n\nIMPORTANT: Base your analysis ONLY on what was actually discussed in the transcript. Do not make assumptions or generate insights based solely on the objectives.\n\nProvide a comprehensive analysis as JSON:\n\x7b\n  \"summary\": \"A 2-3 sentence summary capturing this "
    ++ roleLabel
    ++ "\x27s perspective on AI in education based ONLY on their actual responses\",\n  \"keyInsights\": [\"insight1\", \"insight2\", \"insight3\"],\n  \"depthScore\": 4,\n  \"completionRate\": 0.95,\n  \"recommendations\": [\"recommendation1\", \"recommendation2\"]\n\x7d\n\nDepth Score: Rate 1-5 how deeply they explored their AI experiences (5 = very candid and detailed)\nCompletion Rate: 0-1, how many focus areas were meaningfully discussed\nKey Insights: 3-5 main takeaways about this person\x27s relationship with AI in education\nRecommendations: Suggestions for how the institution could better support this "
    ++ roleLabel

/-- `analyzeInterview`: engagement gating on the count of user-role
messages, then one model call with JSON extraction and generic fallback.
The second component records the prompts sent to the model, so the canned
branches provably make no Gateway call. -/
def analyzeInterview (respond : String → String) (role : Role)
    (plan : InterviewPlan) (transcript : List Message) :
    Outcome InterviewAnalysis × List String :=
  let userResponses := transcript.filter (fun msg => decide (msg.role = MsgRole.user))
  if userResponses.length = 0 then
    (Outcome.value (noResponseAnalysis role), [])
  else if userResponses.length ≤ 2 then
    (Outcome.value (minimalAnalysis role userResponses.length), [])
  else
    let prompt := analysisPrompt role plan transcript
    let content := respond prompt
    match extractJson content with
    | some json => (Outcome.parsed json, [prompt])
    | none => (Outcome.value (genericAnalysis role), [prompt])

/-! ## API route handlers

Each handler reads one session row; the store is modelled as the
`Option Session` the lookup returned, and the handler yields the updated
row together with the HTTP-level result.  `new Date().toISOString()`
becomes explicit timestamp arguments. -/

/-- `DEFAULT_MODEL`: `process.env.OPENAI_MODEL || 'gpt-4o'`, modelled with
the unset-environment default. -/
def DEFAULT_MODEL : String := "gpt-4o"

/-- JavaScript `Math.round`: half-way cases round toward positive
infinity. -/
def jsRound (q : ℚ) : Int := ⌊q + 1 / 2⌋

/-- Responses of the message route. -/
inductive MsgResponse where
  | ok (reply : String)
  | badRequest (error : String)
  | notFound (error : String)
  | serverError (error : String)
deriving DecidableEq, Repr

/-- The POST handler of the message route.  `respond` is the Gateway
oracle; `wrapUpResponse` stands for `generateWrapUpResponse`, which the
route imports but whose definition is not among the provided orchestration
sources, so it stays an opaque collaborator function here (no claim
depends on its body).  `nowU`/`nowA` are the two timestamps taken. -/
def messagePOST (respond : String → String)
    (wrapUpResponse : Role → List (String × String) → String → String)
    (sessionId message : String) (isWrapUp : Bool)
    (sessionRow : Option Session) (nowU nowA : String) :
    Option Session × MsgResponse :=
  if sessionId = "" ∨ message = "" then
    (sessionRow, MsgResponse.badRequest "Session ID and message are required")
  else
    match sessionRow with
    | none => (none, MsgResponse.notFound "Session not found")
    | some session =>
      if session.status ≠ SessionStatus.interviewing then
        (some session, MsgResponse.badRequest "Session is not in interviewing state")
      else
        -- Save user message
        let userMessage : Message := ⟨MsgRole.user, message, nowU⟩
        let s1 := { session with transcript := session.transcript ++ [userMessage] }
        match session.plan with
        | none => (some s1, MsgResponse.serverError "Interview plan not found")
        | some plan =>
          -- history from the session object fetched before the save
          let conversationHistory :=
            session.transcript.map (fun msg => (msgRoleName msg.role, msg.content))
          let assistantResponse :=
            if isWrapUp then wrapUpResponse session.role conversationHistory message
            else generateInterviewResponse respond session.role plan
              conversationHistory message
          -- Save assistant response
          let s2 := { s1 with transcript :=
            s1.transcript ++ [(⟨MsgRole.assistant, assistantResponse, nowA⟩ : Message)] }
          -- Track token usage (rough estimate)
          let estimatedTokens : ℚ :=
            ((message.length : ℚ) + (assistantResponse.length : ℚ)) / 4
          let cost := calculateCost estimatedTokens DEFAULT_MODEL
          let s3 := { s2 with
            costTokens := s2.costTokens + jsRound estimatedTokens,
            costAmount := s2.costAmount + cost }
          (some s3, MsgResponse.ok assistantResponse)

/-- Responses of the complete route; `ok` carries the analysis object
returned to the client. -/
inductive CompleteResponse where
  | ok (analysis : Outcome InterviewAnalysis)
  | badRequest (error : String)
  | notFound (error : String)
  | serverError (error : String)
deriving DecidableEq, Repr

/-- The POST handler of the complete route: existence and plan checks, a
transition to `analyzing`, the analysis call, `saveAnalysis`, and a
transition to `completed`.  There is no check of the current status. -/
def completePOST (respond : String → String) (sessionId : String)
    (sessionRow : Option Session) : Option Session × CompleteResponse :=
  if sessionId = "" then
    (sessionRow, CompleteResponse.badRequest "Session ID is required")
  else
    match sessionRow with
    | none => (none, CompleteResponse.notFound "Session not found")
    | some session =>
      match session.plan with
      | none => (some session, CompleteResponse.serverError "Interview plan not found")
      | some plan =>
        let s1 := { session with status := SessionStatus.analyzing }
        let result := analyzeInterview respond session.role plan session.transcript
        let s2 := { s1 with analysis := some result.1 }
        let s3 := { s2 with status := SessionStatus.completed }
        (some s3, CompleteResponse.ok result.1)

/-! ## Auxiliary definitions for the statements -/

/-- The number of user-role messages in a transcript, the quantity the
engagement gate of `analyzeInterview` branches on. -/
def userCount (transcript : List Message) : Nat :=
  (transcript.filter (fun msg => decide (msg.role = MsgRole.user))).length

/-- The extraction procedure as the specification words it: the candidate
list — fenced-block capture, brace-delimited span, raw text — tried in
order, with the first candidate that parses as JSON winning.  This is the
spec-side definition, to be compared against `extractJson`. -/
def extractJsonSpec (content : String) : Option String :=
  ((fencedInner content).toList ++ (braceSpan content).toList ++ [content]).find?
    jsonValid

/-- A sample transcript with exactly one user message. -/
def sampleTranscript1 : List Message :=
  [⟨MsgRole.system, "objectives", "t0"⟩,
   ⟨MsgRole.assistant, "Hello! First question?", "t1"⟩,
   ⟨MsgRole.user, "Hi", "t2"⟩]

/-- A sample transcript with three user messages. -/
def sampleTranscript3 : List Message :=
  [⟨MsgRole.system, "objectives", "t0"⟩,
   ⟨MsgRole.assistant, "Q1?", "t1"⟩,
   ⟨MsgRole.user, "A1", "t2"⟩,
   ⟨MsgRole.assistant, "Q2?", "t3"⟩,
   ⟨MsgRole.user, "A2", "t4"⟩,
   ⟨MsgRole.assistant, "Q3?", "t5"⟩,
   ⟨MsgRole.user, "A3", "t6"⟩]

/-- A session that has already completed, with a stored analysis. -/
def sampleCompletedSession : Session :=
  { id := "session_1"
    topic := "AI in Education"
    role := Role.student
    status := SessionStatus.completed
    transcript := []
    plan := some (INTERVIEW_PLANS Role.student)
    analysis := some (Outcome.value (genericAnalysis Role.student))
    costTokens := 120
    costAmount := 0.01 }

/-- An interviewing session that never got a plan attached. -/
def samplePlanlessSession : Session :=
  { id := "session_2"
    topic := "AI in Education"
    role := Role.staff
    status := SessionStatus.interviewing
    transcript := [⟨MsgRole.system, "objectives", "t0"⟩]
    plan := none
    analysis := none
    costTokens := 0
    costAmount := 0 }

/-! # Theorems -/

/-- Rates found in the pricing table are non-negative. -/
theorem lookupRates_nonneg (modelName : String) (r : Rates)
    (h : lookupRates modelName = some r) : 0 ≤ r.input ∧ 0 ≤ r.output := by
  unfold lookupRates at h
  split_ifs at h <;> simp_all <;> subst h <;> constructor <;> norm_num

/-- C8: `calculateCost` is pure and, for a model name present in the rate
table and a non-negative token count, returns exactly
`(t/2)·(inputRate/1000) + (t/2)·(outputRate/1000)`; the result is
non-negative and monotone non-decreasing in the token count. -/
theorem calculateCost_formula (tokens tokens2 : ℚ) (modelName : String)
    (r : Rates) (h0 : 0 ≤ tokens) (hr : lookupRates modelName = some r)
    (hle : tokens ≤ tokens2) :
    calculateCost tokens modelName
      = (tokens / 2) * (r.input / 1000) + (tokens / 2) * (r.output / 1000) ∧
    0 ≤ calculateCost tokens modelName ∧
    calculateCost tokens modelName ≤ calculateCost tokens2 modelName := by
  obtain ⟨hi, ho⟩ := lookupRates_nonneg modelName r hr
  have hcalc : ∀ t : ℚ, calculateCost t modelName
      = (t / 2) * (r.input / 1000) + (t / 2) * (r.output / 1000) := by
    intro t
    simp [calculateCost, hr]
  have hi2 : (0 : ℚ) ≤ r.input / 1000 := by positivity
  have ho2 : (0 : ℚ) ≤ r.output / 1000 := by positivity
  refine ⟨hcalc tokens, ?_, ?_⟩
  · rw [hcalc]
    have := mul_nonneg (by linarith : (0 : ℚ) ≤ tokens / 2) hi2
    have := mul_nonneg (by linarith : (0 : ℚ) ≤ tokens / 2) ho2
    linarith
  · rw [hcalc, hcalc]
    nlinarith [mul_nonneg (sub_nonneg.2 hle) (add_nonneg hi2 ho2)]

/-- Witness for C8 at 1000 tokens of gpt-4. -/
theorem calculateCost_formula_witness :
    calculateCost 1000 "gpt-4"
      = ((1000 : ℚ) / 2) * (0.03 / 1000) + ((1000 : ℚ) / 2) * (0.06 / 1000) ∧
    0 ≤ calculateCost 1000 "gpt-4" ∧
    calculateCost 1000 "gpt-4" ≤ calculateCost 2000 "gpt-4" :=
  calculateCost_formula 1000 2000 "gpt-4" ⟨0.03, 0.06⟩ (by norm_num) (by rfl)
    (by norm_num)

/-- C10: a model name absent from the pricing table (the empty string
included) silently gets the gpt-4o rates: the cost is exactly the cost
computed for "gpt-4o". -/
theorem calculateCost_unknown_model_default (tokens : ℚ) (modelName : String)
    (h : lookupRates modelName = none) :
    calculateCost tokens modelName = calculateCost tokens "gpt-4o" := by
  have h4o : lookupRates "gpt-4o" = some ⟨0.005, 0.015⟩ := rfl
  simp [calculateCost, h, h4o]

/-- Witness for C10 at the empty model name. -/
theorem calculateCost_unknown_model_default_witness :
    calculateCost 4 "" = calculateCost 4 "gpt-4o" :=
  calculateCost_unknown_model_default 4 "" (by rfl)

/-- C6 (counterexample): the static student plan attached at Start has 6
questions, not between 8 and 12; the fallback plan has 3. -/
theorem plan_questions_count_counterexample :
    (getInterviewPlanForRole Role.student).questions.length = 6 ∧
    ¬ (8 ≤ (getInterviewPlanForRole Role.student).questions.length ∧
        (getInterviewPlanForRole Role.student).questions.length ≤ 12) ∧
    (fallbackPlan "AI in healthcare").questions.length = 3 := by
  refine ⟨by decide, by decide, by decide⟩

/-- C6 (amended): every static role plan has exactly 6 questions and the
fallback plan has exactly 3; only the generation prompt asks for 8–12 and
no code validates the generated count. -/
theorem plan_questions_count (role : Role) (topic : String) :
    (getInterviewPlanForRole role).questions.length = 6 ∧
    (fallbackPlan topic).questions.length = 3 := by
  cases role <;> exact ⟨by decide, by simp [fallbackPlan]⟩

/-- C7: the follow-up prompt uses at most the last 10 history entries, a
suffix of the history (original order); the rendered prompt, hence the
generated response, depends on the history only through those last 10
entries. -/
theorem generateInterviewResponse_history_truncation
    (respond : String → String) (role : Role) (plan : InterviewPlan)
    (conversationHistory : List (String × String)) (currentMessage : String) :
    (jsSliceLast 10 conversationHistory).length ≤ 10 ∧
    (∃ dropped, dropped ++ jsSliceLast 10 conversationHistory
      = conversationHistory) ∧
    generateInterviewResponse respond role plan conversationHistory
        currentMessage
      = generateInterviewResponse respond role plan
          (jsSliceLast 10 conversationHistory) currentMessage := by
  refine ⟨?_, ⟨conversationHistory.take (conversationHistory.length - 10), ?_⟩, ?_⟩
  · simp only [jsSliceLast, List.length_drop]
    omega
  · exact List.take_append_drop _ _
  · have hidem : jsSliceLast 10 (jsSliceLast 10 conversationHistory)
        = jsSliceLast 10 conversationHistory := by
      unfold jsSliceLast
      rw [List.length_drop]
      have hz : conversationHistory.length - (conversationHistory.length - 10) - 10
          = 0 := by omega
      rw [hz, List.drop_zero]
    unfold generateInterviewResponse historyContext
    rw [hidem]

/-- C1: Complete's analysis with 0 user messages is the canned result with
depthScore 0 and completionRate 0; with 1 or 2 user messages it is the
canned minimal-engagement result with depthScore 1 and
completionRate min(0.2, userCount/10); both branches make no Gateway call
(empty prompt log) and hold for every Gateway oracle, so they are
deterministic. -/
theorem analyzeInterview_engagement_gating (respond : String → String)
    (role : Role) (plan : InterviewPlan) (transcript : List Message) :
    (userCount transcript = 0 →
      analyzeInterview respond role plan transcript
        = (Outcome.value (noResponseAnalysis role), []) ∧
      (noResponseAnalysis role).depthScore = 0 ∧
      (noResponseAnalysis role).completionRate = 0) ∧
    (userCount transcript = 1 ∨ userCount transcript = 2 →
      analyzeInterview respond role plan transcript
        = (Outcome.value (minimalAnalysis role (userCount transcript)), []) ∧
      (minimalAnalysis role (userCount transcript)).depthScore = 1 ∧
      (minimalAnalysis role (userCount transcript)).completionRate
        = min 0.2 ((userCount transcript : ℚ) / 10)) := by
  constructor
  · intro h
    unfold userCount at h
    exact ⟨by simp [analyzeInterview, h], rfl, rfl⟩
  · intro h
    have hne : userCount transcript ≠ 0 := by rcases h with h | h <;> omega
    have hle : userCount transcript ≤ 2 := by rcases h with h | h <;> omega
    unfold userCount at hne hle
    refine ⟨?_, rfl, rfl⟩
    simp [analyzeInterview, hne, hle, userCount]

/-- Witness for C1: an empty transcript and a one-user-message
transcript. -/
theorem analyzeInterview_engagement_gating_witness :
    analyzeInterview (fun _ => "any reply") Role.student
        (INTERVIEW_PLANS Role.student) []
      = (Outcome.value (noResponseAnalysis Role.student), []) ∧
    analyzeInterview (fun _ => "other reply") Role.staff
        (INTERVIEW_PLANS Role.staff) sampleTranscript1
      = (Outcome.value (minimalAnalysis Role.staff 1), []) := by
  constructor
  · exact ((analyzeInterview_engagement_gating (fun _ => "any reply")
      Role.student (INTERVIEW_PLANS Role.student) []).1 (by decide)).1
  · have h := ((analyzeInterview_engagement_gating (fun _ => "other reply")
      Role.staff (INTERVIEW_PLANS Role.staff) sampleTranscript1).2
      (Or.inl (by decide))).1
    have e : userCount sampleTranscript1 = 1 := by decide
    rw [e] at h
    exact h

/-- C4: a Message call on an existing session whose status is not
`interviewing` fails with the invalid-state client error and leaves the
session row — transcript and cost accumulator included — unchanged. -/
theorem messagePOST_invalid_state (respond : String → String)
    (wrapUpResponse : Role → List (String × String) → String → String)
    (sessionId message : String) (isWrapUp : Bool) (session : Session)
    (nowU nowA : String) (hsid : sessionId ≠ "") (hmsg : message ≠ "")
    (hst : session.status ≠ SessionStatus.interviewing) :
    messagePOST respond wrapUpResponse sessionId message isWrapUp
        (some session) nowU nowA
      = (some session,
         MsgResponse.badRequest "Session is not in interviewing state") := by
  simp [messagePOST, hsid, hmsg, hst]

/-- Witness for C4 on a completed session. -/
theorem messagePOST_invalid_state_witness :
    messagePOST (fun _ => "") (fun _ _ _ => "") "session_1" "hello" false
        (some sampleCompletedSession) "t8" "t9"
      = (some sampleCompletedSession,
         MsgResponse.badRequest "Session is not in interviewing state") :=
  messagePOST_invalid_state _ _ _ _ _ _ _ _ (by decide) (by decide) (by decide)

/-- C9: a Message call on an interviewing session without a plan fails
with the server error only after the user message was appended: the
returned row keeps the user message, no assistant message is added, and
the cost accumulator is unchanged — the error path is not atomic. -/
theorem messagePOST_missing_plan (respond : String → String)
    (wrapUpResponse : Role → List (String × String) → String → String)
    (sessionId message : String) (isWrapUp : Bool) (session : Session)
    (nowU nowA : String) (hsid : sessionId ≠ "") (hmsg : message ≠ "")
    (hst : session.status = SessionStatus.interviewing)
    (hplan : session.plan = none) :
    messagePOST respond wrapUpResponse sessionId message isWrapUp
        (some session) nowU nowA
      = (some { session with transcript :=
            session.transcript ++ [(⟨MsgRole.user, message, nowU⟩ : Message)] },
         MsgResponse.serverError "Interview plan not found") ∧
    ({ session with transcript :=
        session.transcript ++ [(⟨MsgRole.user, message, nowU⟩ : Message)]
      } : Session).costTokens = session.costTokens ∧
    ({ session with transcript :=
        session.transcript ++ [(⟨MsgRole.user, message, nowU⟩ : Message)]
      } : Session).costAmount = session.costAmount := by
  refine ⟨?_, rfl, rfl⟩
  simp [messagePOST, hsid, hmsg, hst, hplan]

/-- Witness for C9 on a plan-less interviewing session. -/
theorem messagePOST_missing_plan_witness :
    messagePOST (fun _ => "") (fun _ _ _ => "") "session_2" "hello" false
        (some samplePlanlessSession) "t1" "t2"
      = (some { samplePlanlessSession with transcript :=
            samplePlanlessSession.transcript
              ++ [(⟨MsgRole.user, "hello", "t1"⟩ : Message)] },
         MsgResponse.serverError "Interview plan not found") ∧
    ({ samplePlanlessSession with transcript :=
        samplePlanlessSession.transcript
          ++ [(⟨MsgRole.user, "hello", "t1"⟩ : Message)]
      } : Session).costTokens = samplePlanlessSession.costTokens ∧
    ({ samplePlanlessSession with transcript :=
        samplePlanlessSession.transcript
          ++ [(⟨MsgRole.user, "hello", "t1"⟩ : Message)]
      } : Session).costAmount = samplePlanlessSession.costAmount :=
  messagePOST_missing_plan _ _ _ _ _ _ _ _ (by decide) (by decide) (by decide)
    (by decide)

/-- C5 (counterexample): a Complete call on an already-completed session
is not rejected — it answers `ok` and overwrites the stored analysis with
a freshly computed one. -/
theorem completePOST_repeat_not_rejected :
    (completePOST (fun _ => "") "session_1" (some sampleCompletedSession)).2
      = CompleteResponse.ok (Outcome.value (noResponseAnalysis Role.student)) ∧
    (completePOST (fun _ => "") "session_1" (some sampleCompletedSession)).1
      = some { sampleCompletedSession with
          analysis := some (Outcome.value (noResponseAnalysis Role.student)) } ∧
    some (Outcome.value (noResponseAnalysis Role.student))
      ≠ sampleCompletedSession.analysis := by
  refine ⟨by decide, by rfl, by decide⟩

/-- C5 (amended): the complete route has no status guard: on a completed
session with a plan it re-runs the analysis, overwrites the stored
analysis with the new result, and ends at `completed` again, answering
`ok`. -/
theorem completePOST_rerun_analysis (respond : String → String)
    (sessionId : String) (session : Session) (plan : InterviewPlan)
    (hsid : sessionId ≠ "") (_hst : session.status = SessionStatus.completed)
    (hplan : session.plan = some plan) :
    completePOST respond sessionId (some session)
      = (some { session with
          status := SessionStatus.completed,
          analysis := some
            (analyzeInterview respond session.role plan session.transcript).1 },
         CompleteResponse.ok
           (analyzeInterview respond session.role plan session.transcript).1) := by
  simp [completePOST, hsid, hplan]

/-- Witness for C5's amended statement on the sample completed session. -/
theorem completePOST_rerun_analysis_witness :
    completePOST (fun _ => "") "session_1" (some sampleCompletedSession)
      = (some { sampleCompletedSession with
          status := SessionStatus.completed,
          analysis := some (analyzeInterview (fun _ => "") Role.student
            (INTERVIEW_PLANS Role.student) []).1 },
         CompleteResponse.ok (analyzeInterview (fun _ => "") Role.student
           (INTERVIEW_PLANS Role.student) []).1) :=
  completePOST_rerun_analysis (fun _ => "") "session_1" sampleCompletedSession
    (INTERVIEW_PLANS Role.student) (by decide) rfl rfl

/-- C2 (counterexample): a response whose fenced block holds unparseable
text followed by a parseable brace span.  Candidate (b) parses, yet the
extraction returns nothing (the operation falls back), because only the
fenced capture was ever handed to the parser. -/
theorem extractJson_first_parse_counterexample :
    jsonValid "\x7b\"a\": 1\x7d" = true ∧
    braceSpan "```json\nnot json\n```\n\x7b\"a\": 1\x7d"
      = some "\x7b\"a\": 1\x7d" ∧
    extractJson "```json\nnot json\n```\n\x7b\"a\": 1\x7d" = none ∧
    extractJsonSpec "```json\nnot json\n```\n\x7b\"a\": 1\x7d"
      = some "\x7b\"a\": 1\x7d" ∧
    generateInterviewPlan (fun _ => "```json\nnot json\n```\n\x7b\"a\": 1\x7d")
        "AI in healthcare"
      = Outcome.value (fallbackPlan "AI in healthcare") := by
  refine ⟨by decide, by decide, by decide, by decide, by decide⟩

/-- C2 (amended): the extraction selects one candidate by syntactic
precedence — the fenced-block capture when a fenced block is present, else
the greedy first-open-to-last-close brace span, else the raw text — and
parses only that candidate; whenever the parse succeeds, the result agrees
with the specification's first-parsing-candidate rule. -/
theorem extractJson_single_candidate (content json : String)
    (h : extractJson content = some json) :
    json = extractCandidate content ∧ jsonValid json = true ∧
    extractJsonSpec content = some json := by
  have hsplit : jsonValid (extractCandidate content) = true
      ∧ extractCandidate content = json := by
    by_cases hv : jsonValid (extractCandidate content)
    · refine ⟨hv, ?_⟩
      simpa [extractJson, hv] using h
    · simp [extractJson, hv] at h
  obtain ⟨hv, hcj⟩ := hsplit
  refine ⟨hcj.symm, hcj ▸ hv, ?_⟩
  unfold extractJsonSpec
  cases hf : fencedInner content with
  | some inner =>
    by_cases he : inner.isEmpty
    · exfalso
      rw [String.isEmpty_iff] at he
      subst he
      have hcand : extractCandidate content = "```json\n" ++ "" ++ "\n```" := by
        simp [extractCandidate, hf, String.isEmpty_iff]
      rw [hcand] at hv
      have hfalse : jsonValid ("```json\n" ++ "" ++ "\n```") = false := by decide
      rw [hfalse] at hv
      exact Bool.noConfusion hv
    · have hcand : extractCandidate content = inner := by
        simp [extractCandidate, hf, he]
      have hij : inner = json := by rw [← hcand, hcj]
      subst hij
      have hvi : jsonValid inner = true := hcand ▸ hv
      simp [hf, List.find?, hvi]
  | none =>
    cases hb : braceSpan content with
    | some span =>
      have hcand : extractCandidate content = span := by
        simp [extractCandidate, hf, hb]
      have hsj : span = json := by rw [← hcand, hcj]
      subst hsj
      have hvs : jsonValid span = true := hcand ▸ hv
      simp [hf, hb, List.find?, hvs]
    | none =>
      have hcand : extractCandidate content = content := by
        simp [extractCandidate, hf, hb]
      have hcc : content = json := by rw [← hcand, hcj]
      subst hcc
      have hvc : jsonValid content = true := hcand ▸ hv
      simp [hf, hb, List.find?, hvc]

/-- Witness for C2's amended statement: a well-formed fenced reply. -/
theorem extractJson_single_candidate_witness :
    "\x7b\"a\": 1\x7d" = extractCandidate "```json\n\x7b\"a\": 1\x7d\n```" ∧
    jsonValid "\x7b\"a\": 1\x7d" = true ∧
    extractJsonSpec "```json\n\x7b\"a\": 1\x7d\n```" = some "\x7b\"a\": 1\x7d" :=
  extractJson_single_candidate "```json\n\x7b\"a\": 1\x7d\n```" "\x7b\"a\": 1\x7d"
    (by decide)

/-- C3 (counterexample): a response text that is not valid JSON but whose
brace span parses: the plan call returns the parsed span as-is — not the
deterministic fallback plan (and with no schema validation). -/
theorem plan_fallback_counterexample :
    jsonValid "note \x7b\"a\": 1\x7d" = false ∧
    generateInterviewPlan (fun _ => "note \x7b\"a\": 1\x7d") "AI in healthcare"
      = Outcome.parsed "\x7b\"a\": 1\x7d" ∧
    Outcome.parsed "\x7b\"a\": 1\x7d"
      ≠ Outcome.value (fallbackPlan "AI in healthcare") := by
  refine ⟨by decide, by decide, by decide⟩

/-- C3 (amended): when the extracted candidate fails to parse, both the
plan-generation and the analysis call still return normally with their
deterministic fallbacks — the fallback plan with its 1/3/3 shape, and the
generic analysis with depthScore 3 and completionRate 0.8; when the
candidate parses, the parsed JSON is returned without schema
validation. -/
theorem parse_failure_fallback (respond : String → String) (topic : String)
    (role : Role) (plan : InterviewPlan) (transcript : List Message)
    (hplan : jsonValid (extractCandidate (respond (planPrompt topic))) = false)
    (hana : jsonValid (extractCandidate
      (respond (analysisPrompt role plan transcript))) = false)
    (hn : 3 ≤ userCount transcript) :
    generateInterviewPlan respond topic = Outcome.value (fallbackPlan topic) ∧
    (analyzeInterview respond role plan transcript).1
      = Outcome.value (genericAnalysis role) ∧
    (genericAnalysis role).depthScore = 3 ∧
    (genericAnalysis role).completionRate = 0.8 ∧
    (fallbackPlan topic).objectives.length = 1 ∧
    (fallbackPlan topic).questions.length = 3 ∧
    (fallbackPlan topic).focusAreas.length = 3 := by
  have hne : ¬ (transcript.filter
      (fun msg => decide (msg.role = MsgRole.user))).length = 0 := by
    unfold userCount at hn
    omega
  have hnle : ¬ (transcript.filter
      (fun msg => decide (msg.role = MsgRole.user))).length ≤ 2 := by
    unfold userCount at hn
    omega
  refine ⟨?_, ?_, rfl, rfl, rfl, rfl, rfl⟩
  · simp [generateInterviewPlan, extractJson, hplan]
  · simp [analyzeInterview, hne, hnle, extractJson, hana]

/-- Witness for C3's amended statement on an unparseable reply. -/
theorem parse_failure_fallback_witness :
    generateInterviewPlan (fun _ => "not json") "AI in healthcare"
      = Outcome.value (fallbackPlan "AI in healthcare") ∧
    (analyzeInterview (fun _ => "not json") Role.student
        (INTERVIEW_PLANS Role.student) sampleTranscript3).1
      = Outcome.value (genericAnalysis Role.student) ∧
    (genericAnalysis Role.student).depthScore = 3 ∧
    (genericAnalysis Role.student).completionRate = 0.8 ∧
    (fallbackPlan "AI in healthcare").objectives.length = 1 ∧
    (fallbackPlan "AI in healthcare").questions.length = 3 ∧
    (fallbackPlan "AI in healthcare").focusAreas.length = 3 :=
  parse_failure_fallback (fun _ => "not json") "AI in healthcare" Role.student
    (INTERVIEW_PLANS Role.student) sampleTranscript3 (by decide) (by decide)
    (by decide)

end InterviewBot
